import Mathlib

/-!
# Verification of the inquiry intake pipeline

A shallow embedding of the inquiry intake pipeline of a Django marketing
site: the `ServiceInquiry` / `ContactInquiry` data model, form validation
(`ServiceInquiryForm`, `ContactSalesForm`), the two spam-scoring heuristics,
the priority-scoring heuristic, and the submission views
(`service_inquiry_submit`, `handle_contact_submission`) with their
notification dispatch.

Strings are modelled as Lean `String`s; Python character classes
(`\d`, `\s`, `str.isupper`, `str.lower`) are modelled on their ASCII
behaviour, which is what the concrete inputs exercise.
-/

/-- Python `\s` / whitespace set used by `str.strip()` and `str.split()`. -/
def isPyWs (c : Char) : Bool :=
  c = ' ' || c = '\t' || c = '\n' || c = '\r' || c = '\x0b' || c = '\x0c'

/-- Python `str.strip()`: drop leading and trailing whitespace. -/
def pyStrip (s : String) : String :=
  ⟨((s.data.dropWhile isPyWs).reverse.dropWhile isPyWs).reverse⟩

/-- Python `str.lower()` (ASCII behaviour). -/
def pyLower (s : String) : String :=
  ⟨s.data.map Char.toLower⟩

/-- Split a character list at each whitespace character (the accumulator
holds the current piece, reversed). -/
def splitWsAux : List Char → List Char → List (List Char)
  | [], acc => [acc.reverse]
  | c :: rest, acc =>
    if isPyWs c then acc.reverse :: splitWsAux rest []
    else splitWsAux rest (c :: acc)

/-- Python `str.split()` with no arguments: split on whitespace,
dropping empty pieces. -/
def pySplit (s : String) : List String :=
  ((splitWsAux s.data []).map (fun l => (⟨l⟩ : String))).filter (· ≠ "")

/-- Python `needle in haystack` on strings: substring containment. -/
def substrB (needle haystack : String) : Bool :=
  decide (needle.data <:+: haystack.data)

/-- Number of uppercase characters of a string
(Python `sum(1 for c in s if c.isupper())`, ASCII behaviour). -/
def upperCount (s : String) : Nat :=
  (s.data.filter Char.isUpper).length

/-- Python `email.split('@')[-1]`: the part after the last `@`
(the whole string when there is no `@`). -/
def emailAfterAt (s : String) : String :=
  ⟨(s.data.reverse.takeWhile (fun c => !(c = '@'))).reverse⟩

/-- `services/models.py`: the `ServiceInquiry` model, restricted to the
fields the intake pipeline reads or writes.  `service` keeps only the
presence and identity of the linked service, `contacted_at` is an abstract
timestamp. -/
structure SInq where
  full_name : String
  email : String
  phone : String
  company : String
  service : Option Nat
  project_type : String
  project_description : String
  budget_range : String
  timeline : String
  reference_url : String
  additional_notes : String
  status : String
  is_spam : Bool
  contacted_at : Option Nat
deriving DecidableEq, Repr

/-- `ServiceInquiry.get_priority_score` (`services/models.py`): base 5,
budget bonus (+3 `over_100k`, +2 `50k_100k`, +1 `25k_50k`), timeline bonus
(+2 `asap`, +1 `flexible`), +1 when a service is attached, capped at 10. -/
def get_priority_score (i : SInq) : Nat :=
  let score := 5
  let score :=
    if i.budget_range = "over_100k" then score + 3
    else if i.budget_range = "50k_100k" then score + 2
    else if i.budget_range = "25k_50k" then score + 1
    else score
  let score :=
    if i.timeline = "asap" then score + 2
    else if i.timeline = "flexible" then score + 1
    else score
  let score := if i.service.isSome then score + 1 else score
  min score 10

/-- The priority score as the spec's words state it (timeline bonus `+1`
for `asap`), kept separate from the source translation so the two can be
compared. -/
def priorityScoreSpecC1 (i : SInq) : Nat :=
  min (5 +
    (if i.budget_range = "over_100k" then 3
     else if i.budget_range = "50k_100k" then 2
     else if i.budget_range = "25k_50k" then 1
     else 0) +
    (if i.timeline = "asap" then 1
     else if i.timeline = "flexible" then 1
     else 0) +
    (if i.service.isSome then 1 else 0)) 10

/-- A default inquiry record used to build concrete test inputs. -/
def baseSInq : SInq where
  full_name := "John Doe"
  email := "john@corp.com"
  phone := ""
  company := "Acme"
  service := none
  project_type := "Website"
  project_description := "We need a new marketing website for our product."
  budget_range := "10k_25k"
  timeline := "planned"
  reference_url := ""
  additional_notes := ""
  status := "new"
  is_spam := false
  contacted_at := none

/-- `core/models.py`: the `ContactInquiry` model, restricted to the fields
the intake pipeline reads or writes. -/
structure CInq where
  full_name : String
  email : String
  phone : String
  company_name : String
  job_title : String
  country : String
  service : Option Nat
  project_type : String
  project_description : String
  budget_range : String
  timeline : String
  reference_url : String
  additional_notes : String
  status : String
  is_spam : Bool
  contacted_at : Option Nat
deriving DecidableEq, Repr

/-- Spam keyword list of `_calculate_spam_score` (`services/views.py`). -/
def svcScoreKeywords : List String :=
  ["viagra", "casino", "lottery", "bitcoin", "crypto",
   "porn", "xxx", "dating", "pills", "supplements",
   "weight loss", "make money", "work from home",
   "click here", "buy now", "limited offer"]

/-- Free-mail domain list of `_calculate_spam_score` (`services/views.py`). -/
def svcFreeEmailDomains : List String :=
  ["gmail.com", "yahoo.com", "hotmail.com", "outlook.com",
   "aol.com", "icloud.com", "mail.com", "protonmail.com"]

/-- Spam keyword list of `calculate_spam_score` (`core/views.py`). -/
def coreScoreKeywords : List String :=
  ["viagra", "casino", "lottery", "bitcoin", "porn", "xxx",
   "dating", "pills", "weight loss", "make money"]

/-- Free-mail domain list of `calculate_spam_score` (`core/views.py`). -/
def coreFreeEmailDomains : List String :=
  ["gmail.com", "yahoo.com", "hotmail.com", "outlook.com"]

/-- Number of the given keywords occurring in a (lowercased) description
(Python `sum(1 for keyword in kws if keyword in desc)`): each distinct
keyword counts once. -/
def keywordMatches (descLower : String) (kws : List String) : Nat :=
  (kws.filter (fun k => substrB k descLower)).length

/-- `email.split('@')[-1].lower()` as used by both scoring functions. -/
def emailDomain (email : String) : String :=
  pyLower (emailAfterAt email)

/-- `_calculate_spam_score` (`services/views.py`).  Sequential conditional
increments translated step by step; Python truthiness of a string is
modelled as `≠ ""`, and `caps_ratio > 0.5` as `2 * upperCount > length`. -/
def svcCalculateSpamScore (i : SInq) : Nat :=
  let score := 0
  let score :=
    if i.project_description ≠ "" then
      let descLower := pyLower i.project_description
      let score :=
        if i.project_description.length > 0 ∧
            2 * upperCount i.project_description > i.project_description.length
        then score + 2 else score
      score + min (keywordMatches descLower svcScoreKeywords * 2) 5
    else score
  let score :=
    if i.email ≠ "" ∧ emailDomain i.email ∈ svcFreeEmailDomains
    then score + 1 else score
  let score :=
    if i.budget_range = "under_5k" ∧ i.timeline = "asap"
    then score + 1 else score
  let score :=
    if i.project_description ≠ "" ∧
        (i.project_description.length < 30 ∨ i.project_description.length > 2000)
    then score + 1 else score
  let score := if i.phone = "" ∧ i.company = "" then score + 1 else score
  min score 10

/-- `calculate_spam_score` (`core/views.py`).  Same shape as the service
variant but with a shorter keyword list, only four free-mail domains, the
`urgent` timeline in the budget/timeline combination, only the `< 30`
length check and no missing-phone/company check. -/
def coreCalculateSpamScore (i : CInq) : Nat :=
  let score := 0
  let score :=
    if i.project_description ≠ "" then
      let descLower := pyLower i.project_description
      let score :=
        if 2 * upperCount i.project_description > i.project_description.length
        then score + 2 else score
      score + min (keywordMatches descLower coreScoreKeywords * 2) 5
    else score
  let score :=
    if i.email ≠ "" ∧ emailDomain i.email ∈ coreFreeEmailDomains
    then score + 1 else score
  let score :=
    if i.budget_range = "under_5k" ∧ i.timeline = "urgent"
    then score + 1 else score
  let score :=
    if i.project_description ≠ "" ∧ i.project_description.length < 30
    then score + 1 else score
  min score 10

/-- The abstract condition profile both spam-score functions factor
through: which bonus conditions hold, and how many keywords matched. -/
structure SpamConds where
  caps : Bool
  kw : Nat
  freeEmail : Bool
  combo : Bool
  badLen : Bool
  missing : Bool
deriving DecidableEq, Repr

/-- Spam score as a function of the condition profile. -/
def spamScoreOfConds (c : SpamConds) : Nat :=
  min ((if c.caps then 2 else 0) + min (c.kw * 2) 5 +
       (if c.freeEmail then 1 else 0) + (if c.combo then 1 else 0) +
       (if c.badLen then 1 else 0) + (if c.missing then 1 else 0)) 10

/-- Profile order: every condition of the left profile also holds on the
right (and at least as many keywords matched). -/
def condsLe (a b : SpamConds) : Prop :=
  (a.caps = true → b.caps = true) ∧ a.kw ≤ b.kw ∧
  (a.freeEmail = true → b.freeEmail = true) ∧
  (a.combo = true → b.combo = true) ∧
  (a.badLen = true → b.badLen = true) ∧
  (a.missing = true → b.missing = true)

instance (a b : SpamConds) : Decidable (condsLe a b) := by
  unfold condsLe
  infer_instance

/-- The condition profile `_calculate_spam_score` evaluates. -/
def svcCondsOf (i : SInq) : SpamConds where
  caps := i.project_description != "" &&
    decide (2 * upperCount i.project_description > i.project_description.length)
  kw := if i.project_description ≠ "" then
      keywordMatches (pyLower i.project_description) svcScoreKeywords
    else 0
  freeEmail := i.email != "" && decide (emailDomain i.email ∈ svcFreeEmailDomains)
  combo := i.budget_range == "under_5k" && i.timeline == "asap"
  badLen := i.project_description != "" &&
    (decide (i.project_description.length < 30) ||
     decide (i.project_description.length > 2000))
  missing := i.phone == "" && i.company == ""

/-- The condition profile `calculate_spam_score` evaluates. -/
def coreCondsOf (i : CInq) : SpamConds where
  caps := i.project_description != "" &&
    decide (2 * upperCount i.project_description > i.project_description.length)
  kw := if i.project_description ≠ "" then
      keywordMatches (pyLower i.project_description) coreScoreKeywords
    else 0
  freeEmail := i.email != "" && decide (emailDomain i.email ∈ coreFreeEmailDomains)
  combo := i.budget_range == "under_5k" && i.timeline == "urgent"
  badLen := i.project_description != "" && decide (i.project_description.length < 30)
  missing := false

lemma iteWeightMono (a b : Bool) (w : Nat) (h : a = true → b = true) :
    (if a then w else 0) ≤ (if b then w else 0) := by
  cases a <;> cases b <;> simp_all

lemma spamScoreOfConds_mono {a b : SpamConds} (h : condsLe a b) :
    spamScoreOfConds a ≤ spamScoreOfConds b := by
  obtain ⟨h1, h2, h3, h4, h5, h6⟩ := h
  unfold spamScoreOfConds
  refine min_le_min ?_ le_rfl
  have hkw : min (a.kw * 2) 5 ≤ min (b.kw * 2) 5 :=
    min_le_min (Nat.mul_le_mul_right 2 h2) le_rfl
  exact add_le_add (add_le_add (add_le_add (add_le_add (add_le_add
    (iteWeightMono _ _ 2 h1) hkw) (iteWeightMono _ _ 1 h3))
    (iteWeightMono _ _ 1 h4)) (iteWeightMono _ _ 1 h5)) (iteWeightMono _ _ 1 h6)

lemma length_pos_of_ne_empty {s : String} (h : s ≠ "") : 0 < s.length := by
  rcases s with ⟨l⟩
  cases l with
  | nil => exact absurd rfl h
  | cons c cs => simp [String.length]

lemma svcSpamScore_eq_conds (i : SInq) :
    svcCalculateSpamScore i = spamScoreOfConds (svcCondsOf i) := by
  simp only [svcCalculateSpamScore, spamScoreOfConds, svcCondsOf,
    Bool.and_eq_true, bne_iff_ne, decide_eq_true_eq, beq_iff_eq,
    Bool.or_eq_true, Nat.zero_add, ne_eq]
  by_cases hd : i.project_description = ""
  · simp only [hd, not_true_eq_false, false_and, if_false, ite_false]
    split_ifs <;> omega
  · have h0 := length_pos_of_ne_empty hd
    simp only [hd, h0, not_false_eq_true, true_and, gt_iff_lt, ite_true]
    split_ifs <;> omega

lemma coreSpamScore_eq_conds (i : CInq) :
    coreCalculateSpamScore i = spamScoreOfConds (coreCondsOf i) := by
  simp only [coreCalculateSpamScore, spamScoreOfConds, coreCondsOf,
    Bool.and_eq_true, bne_iff_ne, decide_eq_true_eq, beq_iff_eq,
    Bool.or_eq_true, Nat.zero_add, ne_eq]
  by_cases hd : i.project_description = ""
  · simp only [hd, eq_self_iff_true, not_true_eq_false, false_and, if_false,
      ite_false, Bool.false_eq_true]
    split_ifs <;> omega
  · simp only [hd, not_false_eq_true, true_and, ite_true, Bool.false_eq_true,
      if_false, ite_false]
    split_ifs <;> omega

/-! ## Form validation (`services/forms.py`, `core/forms.py`) -/

/-- Characters the `ServiceInquiryForm` name check allows
(complement of the regex class `[^a-zA-Z\s\-\']`). -/
def isNameAllowedChar (c : Char) : Bool :=
  c.isAlpha || isPyWs c || c = '-' || c = '\''

/-- `ServiceInquiryForm.clean_website`: honeypot field must be empty. -/
def svcCleanWebsite (s : String) : Except String String :=
  if s ≠ "" then .error "spam_detected" else .ok s

/-- `ContactSalesForm.clean_website`: honeypot field must be empty. -/
def coreCleanWebsite (s : String) : Except String String :=
  if s ≠ "" then .error "spam" else .ok ""

/-- `ServiceInquiryForm.clean_full_name`: trimmed length ≥ 2, no digits,
at most 2 characters outside `[a-zA-Z\s\-\']`. -/
def svcCleanFullName (s : String) : Except String String :=
  let full_name := pyStrip s
  if full_name.length < 2 then .error "name_too_short"
  else if full_name.data.any Char.isDigit then .error "invalid_name_format"
  else if (full_name.data.filter (fun c => !(isNameAllowedChar c))).length > 2 then
    .error "invalid_name_format"
  else .ok full_name

/-- `ContactSalesForm.clean_full_name`: trimmed length ≥ 2 and no digits
(no special-character rule in this variant). -/
def coreCleanFullName (s : String) : Except String String :=
  let name := pyStrip s
  if name.length < 2 then .error "name_too_short"
  else if name.data.any Char.isDigit then .error "name_has_digits"
  else .ok name

/-- Disposable-email deny list shared by both forms' `clean_email`. -/
def tempEmailDomains : List String :=
  ["tempmail.com", "throwaway.email", "10minutemail.com",
   "guerrillamail.com", "mailinator.com"]

/-- `clean_email` of both forms: strip, lowercase, reject disposable
domains (the part after the last `@`, or `''` when there is no `@`). -/
def cleanEmail (s : String) : Except String String :=
  let email := pyLower (pyStrip s)
  let domain := if substrB "@" email then emailAfterAt email else ""
  if domain ∈ tempEmailDomains then .error "temporary_email" else .ok email

/-- Python `phone_digits = re.sub(r'[\s\-\(\)\+]', '', phone)`. -/
def phoneStripFormat (p : String) : String :=
  ⟨p.data.filter (fun c => !(isPyWs c || c = '-' || c = '(' || c = ')' || c = '+'))⟩

/-- Python `str.isdigit()`: non-empty and all digits (ASCII behaviour). -/
def pyIsDigit (s : String) : Bool :=
  s ≠ "" && s.data.all Char.isDigit

/-- `clean_phone` of both forms: optional, but when present the digits left
after removing formatting characters must number between 7 and 15. -/
def cleanPhone (s : String) : Except String String :=
  let phone := pyStrip s
  if phone ≠ "" then
    let phone_digits := phoneStripFormat phone
    if ¬ pyIsDigit phone_digits then .error "invalid_phone"
    else if phone_digits.length < 7 ∨ phone_digits.length > 15 then
      .error "invalid_phone_length"
    else .ok phone
  else .ok phone

/-- Spam keyword list of `ServiceInquiryForm.clean_project_description`. -/
def svcFormKeywords : List String :=
  ["viagra", "casino", "lottery", "bitcoin", "crypto",
   "porn", "xxx", "dating", "hookup", "pills"]

/-- Spam keyword list of `ContactSalesForm.clean_project_description`. -/
def coreFormKeywords : List String :=
  ["viagra", "casino", "lottery", "porn", "xxx"]

/-- One step of `re.findall(r'https?://[^\s]+', ...)`: match the literal
prefix `http://` or `https://` at the head of the list, returning the rest. -/
def matchUrlPrefix : List Char → Option (List Char)
  | 'h' :: 't' :: 't' :: 'p' :: 's' :: ':' :: '/' :: '/' :: r => some r
  | 'h' :: 't' :: 't' :: 'p' :: ':' :: '/' :: '/' :: r => some r
  | _ => none

/-- Fuel-driven scan of `re.findall(r'https?://[^\s]+', s)`: at each
position try the URL prefix followed by at least one non-whitespace
character; a match greedily consumes the non-whitespace run and scanning
resumes after it, otherwise scanning advances one character. -/
def countUrlsAux : Nat → List Char → Nat
  | 0, _ => 0
  | _, [] => 0
  | fuel + 1, c :: rest =>
    match matchUrlPrefix (c :: rest) with
    | some r =>
      let body := r.takeWhile (fun ch => !(isPyWs ch))
      if body.length ≥ 1 then
        1 + countUrlsAux fuel (r.dropWhile (fun ch => !(isPyWs ch)))
      else countUrlsAux fuel rest
    | none => countUrlsAux fuel rest

/-- Number of matches of `re.findall(r'https?://[^\s]+', s)`. -/
def countUrls (s : String) : Nat :=
  countUrlsAux s.data.length s.data

/-- `ServiceInquiryForm.clean_project_description`: trimmed length ≥ 20,
no spam keyword (case-insensitive substring), at most 3 URLs, and no
excessive word repetition (total words / unique words > 3 over more than
10 words; the strict rational comparison is `total > 3 * unique`). -/
def svcCleanProjectDescription (s : String) : Except String String :=
  let description := pyStrip s
  if description.length < 20 then .error "description_too_short"
  else if svcFormKeywords.any (fun k => substrB k (pyLower description)) then
    .error "spam_content"
  else if countUrls description > 3 then .error "too_many_urls"
  else
    let words := pySplit (pyLower description)
    if words.length > 10 ∧ words.length > 3 * words.dedup.length then
      .error "spam_repetition"
    else .ok description

/-- `ContactSalesForm.clean_project_description`: trimmed length ≥ 20 and
no spam keyword (case-insensitive substring). -/
def coreCleanProjectDescription (s : String) : Except String String :=
  let description := pyStrip s
  if description.length < 20 then .error "description_too_short"
  else if coreFormKeywords.any (fun k => substrB k (pyLower description)) then
    .error "invalid_content"
  else .ok description

/-- Link-shortener deny list of `ServiceInquiryForm.clean_reference_url`. -/
def urlShorteners : List String := ["bit.ly", "tinyurl", "goo.gl"]

/-- `ServiceInquiryForm.clean_reference_url`: optional, but must not
contain a known link-shortener substring. -/
def svcCleanReferenceUrl (s : String) : Except String String :=
  let url := pyStrip s
  if url ≠ "" ∧ urlShorteners.any (fun p => substrB p (pyLower url)) then
    .error "shortened_url"
  else .ok url

/-- `ServiceInquiry.BUDGET_CHOICES` keys (`services/models.py`). -/
def svcBudgetChoices : List String :=
  ["under_5k", "5k_10k", "10k_25k", "25k_50k", "50k_100k", "over_100k", "not_sure"]

/-- `ServiceInquiry.TIMELINE_CHOICES` keys (`services/models.py`). -/
def svcTimelineChoices : List String := ["asap", "flexible", "planned", "ongoing"]

/-- `ServiceInquiry.STATUS_CHOICES` keys (`services/models.py`). -/
def svcStatusChoices : List String :=
  ["new", "reviewing", "contacted", "quoted", "converted", "declined", "spam"]

/-- `ContactInquiry` budget choice keys (`core/models.py`). -/
def coreBudgetChoices : List String :=
  ["under_5k", "5k_10k", "10k_25k", "25k_50k", "50k_100k", "100k+"]

/-- `ContactInquiry` timeline choice keys (`core/models.py`). -/
def coreTimelineChoices : List String := ["urgent", "soon", "flexible", "planned"]

/-- The `ServiceInquiryForm` submission fields (bound form data). -/
structure SvcFormData where
  website : String
  accept_terms : Bool
  full_name : String
  email : String
  phone : String
  company : String
  service : Option Nat
  project_type : String
  project_description : String
  budget_range : String
  timeline : String
  reference_url : String
  additional_notes : String
deriving DecidableEq, Repr

/-- The `ContactSalesForm` submission fields (bound form data). -/
structure CFormData where
  website : String
  agree_to_contact : Bool
  full_name : String
  email : String
  phone : String
  company_name : String
  job_title : String
  country : String
  service : Option Nat
  project_type : String
  project_description : String
  budget_range : String
  timeline : String
  reference_url : String
  additional_notes : String
deriving DecidableEq, Repr

/-- Turn one field's cleaning result into its contribution to the form's
error mapping. -/
def errsOf (field : String) : Except String String → List (String × String)
  | .error e => [(field, e)]
  | .ok _ => []

/-- Field-scoped errors of a bound `ServiceInquiryForm`: Django runs every
field's validation (required flags, choice membership and the form's
`clean_<field>` methods) and collects all failures. -/
def svcFormErrors (fd : SvcFormData) : List (String × String) :=
  errsOf "website" (svcCleanWebsite fd.website) ++
  errsOf "full_name" (svcCleanFullName fd.full_name) ++
  (if pyStrip fd.email = "" then [("email", "required")] else []) ++
  errsOf "email" (cleanEmail fd.email) ++
  errsOf "phone" (cleanPhone fd.phone) ++
  (if pyStrip fd.project_type = "" then [("project_type", "required")] else []) ++
  errsOf "project_description" (svcCleanProjectDescription fd.project_description) ++
  (if fd.budget_range ∈ svcBudgetChoices then [] else [("budget_range", "invalid_choice")]) ++
  (if fd.timeline ∈ svcTimelineChoices then [] else [("timeline", "invalid_choice")]) ++
  errsOf "reference_url" (svcCleanReferenceUrl fd.reference_url) ++
  (if fd.accept_terms then [] else [("accept_terms", "required")])

/-- The `ServiceInquiry` instance a valid `ServiceInquiryForm` builds:
cleaned (stripped, email lowercased) field values, fresh status. -/
def svcCleanedInquiry (fd : SvcFormData) : SInq where
  full_name := pyStrip fd.full_name
  email := pyLower (pyStrip fd.email)
  phone := pyStrip fd.phone
  company := pyStrip fd.company
  service := fd.service
  project_type := pyStrip fd.project_type
  project_description := pyStrip fd.project_description
  budget_range := fd.budget_range
  timeline := fd.timeline
  reference_url := pyStrip fd.reference_url
  additional_notes := pyStrip fd.additional_notes
  status := "new"
  is_spam := false
  contacted_at := none

/-- `ServiceInquiryForm.is_valid()` plus `cleaned_data`: all field errors,
or the cleaned model instance. -/
def validateSvcForm (fd : SvcFormData) : Except (List (String × String)) SInq :=
  match svcFormErrors fd with
  | [] => .ok (svcCleanedInquiry fd)
  | errs => .error errs

/-- Field-scoped errors of a bound `ContactSalesForm`. -/
def coreFormErrors (fd : CFormData) : List (String × String) :=
  errsOf "website" (coreCleanWebsite fd.website) ++
  errsOf "full_name" (coreCleanFullName fd.full_name) ++
  (if pyStrip fd.email = "" then [("email", "required")] else []) ++
  errsOf "email" (cleanEmail fd.email) ++
  errsOf "phone" (cleanPhone fd.phone) ++
  (if pyStrip fd.company_name = "" then [("company_name", "required")] else []) ++
  (if pyStrip fd.country = "" then [("country", "required")] else []) ++
  (if pyStrip fd.project_type = "" then [("project_type", "required")] else []) ++
  errsOf "project_description" (coreCleanProjectDescription fd.project_description) ++
  (if fd.budget_range ∈ coreBudgetChoices then [] else [("budget_range", "invalid_choice")]) ++
  (if fd.timeline ∈ coreTimelineChoices then [] else [("timeline", "invalid_choice")]) ++
  (if fd.agree_to_contact then [] else [("agree_to_contact", "required")])

/-- The `ContactInquiry` instance a valid `ContactSalesForm` builds. -/
def coreCleanedInquiry (fd : CFormData) : CInq where
  full_name := pyStrip fd.full_name
  email := pyLower (pyStrip fd.email)
  phone := pyStrip fd.phone
  company_name := pyStrip fd.company_name
  job_title := pyStrip fd.job_title
  country := fd.country
  service := fd.service
  project_type := pyStrip fd.project_type
  project_description := pyStrip fd.project_description
  budget_range := fd.budget_range
  timeline := fd.timeline
  reference_url := pyStrip fd.reference_url
  additional_notes := pyStrip fd.additional_notes
  status := "new"
  is_spam := false
  contacted_at := none

/-- `ContactSalesForm.is_valid()` plus `cleaned_data`. -/
def validateCoreForm (fd : CFormData) : Except (List (String × String)) CInq :=
  match coreFormErrors fd with
  | [] => .ok (coreCleanedInquiry fd)
  | errs => .error errs

/-! ## Model-level validation and save (`services/models.py`) -/

/-- Spam keyword list of `ServiceInquiry.clean`. -/
def modelSpamKeywords : List String :=
  ["viagra", "casino", "crypto", "bitcoin", "lottery", "porn"]

/-- The phone regex `^[\d\s\+\-\(\)]+$` of `ServiceInquiry.clean`. -/
def phoneCharsOk (p : String) : Bool :=
  p.data.all (fun c => c.isDigit || isPyWs c || c = '+' || c = '-' || c = '(' || c = ')')

/-- Whether the description triggers the model-level spam flagging of
`ServiceInquiry.clean`. -/
def hasModelSpamKeyword (description : String) : Bool :=
  modelSpamKeywords.any (fun k => substrB k (pyLower description))

/-- `ServiceInquiry.clean`: reject a malformed phone, and unconditionally
set `is_spam` whenever the description contains a model-level keyword
(`is_spam` is never reset here). -/
def serviceInquiryClean (i : SInq) : Except String SInq :=
  if i.phone ≠ "" ∧ ¬ phoneCharsOk i.phone then .error "phone"
  else if hasModelSpamKeyword i.project_description then .ok { i with is_spam := true }
  else .ok i

/-- `ServiceInquiry.save`: `full_clean()` (field validators — minimum
lengths and choice membership — then `clean()`), then persist.  Returns
the record as persisted, or the validation error that aborted the save. -/
def serviceInquirySave (i : SInq) : Except String SInq :=
  if i.full_name.length < 2 then .error "full_name"
  else if i.project_description.length < 20 then .error "project_description"
  else if i.budget_range ∉ svcBudgetChoices then .error "budget_range"
  else if i.timeline ∉ svcTimelineChoices then .error "timeline"
  else if i.status ∉ svcStatusChoices then .error "status"
  else serviceInquiryClean i

/-! ## `mark_as_contacted` (`services/models.py`, `core/models.py`) -/

/-- `ServiceInquiry.mark_as_contacted`: stamp `contacted_at` only when it
is unset, and move a `new` status to `contacted` (field updates of the
method; the trailing `save()` persists them and touches neither field). -/
def svcMarkAsContacted (now : Nat) (i : SInq) : SInq :=
  let i := if i.contacted_at = none then { i with contacted_at := some now } else i
  if i.status = "new" then { i with status := "contacted" } else i

/-- `ContactInquiry.mark_as_contacted` (`core/models.py`): same logic. -/
def coreMarkAsContacted (now : Nat) (i : CInq) : CInq :=
  let i := if i.contacted_at = none then { i with contacted_at := some now } else i
  if i.status = "new" then { i with status := "contacted" } else i

/-- The operations the repository's own code performs on a stored
`ServiceInquiry`: `mark_as_contacted` and `save` (which runs
`full_clean`/`clean`; a failed save leaves the stored record unchanged). -/
inductive SvcOp
  | markContacted (now : Nat)
  | saveOp
deriving DecidableEq, Repr

def svcApplyOp : SvcOp → SInq → SInq
  | .markContacted t, i => svcMarkAsContacted t i
  | .saveOp, i =>
    match serviceInquirySave i with
    | .ok r => r
    | .error _ => i

/-! ## Notification dispatch and the submission views -/

/-- The two outbound emails of `_send_inquiry_notifications`
(`services/views.py`) and `send_contact_notifications` (`core/views.py`). -/
inductive EmailMsg
  | adminNotification
  | clientConfirmation
deriving DecidableEq, Repr

/-- Outcome of a notification run: which sends were attempted, which were
dispatched, and whether the function raised. -/
structure NotifyResult where
  attempted : List EmailMsg
  dispatched : List EmailMsg
  raised : Bool
deriving DecidableEq, Repr

/-- `_send_inquiry_notifications` / `send_contact_notifications`: build and
send the admin notification (`fail_silently=False`), then build and send
the client confirmation.  The transport outcome of each send is an input;
a raising send propagates immediately. -/
def sendInquiryNotifications (adminSendOk clientSendOk : Bool) : NotifyResult :=
  if !adminSendOk then
    { attempted := [.adminNotification], dispatched := [], raised := true }
  else if !clientSendOk then
    { attempted := [.adminNotification, .clientConfirmation],
      dispatched := [.adminNotification], raised := true }
  else
    { attempted := [.adminNotification, .clientConfirmation],
      dispatched := [.adminNotification, .clientConfirmation], raised := false }

/-- Log records the views emit. -/
inductive LogEntry
  | spamWarning
  | emailSendError
  | processingError
deriving DecidableEq, Repr

/-- The client-visible result of a submission. -/
inductive SubmitResponse
  | success (inquiry_id : Nat)
  | validationFailed (errors : List (String × String))
  | serverError
deriving DecidableEq, Repr

/-- `service_inquiry_submit` (`services/views.py`): validate, score, flag
as spam above threshold 7, save (a failing save is the outer
`except`-branch), then attempt notifications inside a `try` whose failure
is only logged.  The store is a list of (assigned id, record); ids are
assigned sequentially. -/
def serviceInquirySubmit (fd : SvcFormData) (adminSendOk clientSendOk : Bool)
    (store : List (Nat × SInq)) :
    List (Nat × SInq) × List LogEntry × SubmitResponse :=
  match validateSvcForm fd with
  | .error errs => (store, [], .validationFailed errs)
  | .ok inq =>
    let spam_score := svcCalculateSpamScore inq
    let inq := if spam_score > 7 then { inq with is_spam := true } else inq
    let warnLog : List LogEntry := if spam_score > 7 then [.spamWarning] else []
    match serviceInquirySave inq with
    | .error _ => (store, warnLog ++ [.processingError], .serverError)
    | .ok saved =>
      let newId := store.length + 1
      let store' := store ++ [(newId, saved)]
      let notify := sendInquiryNotifications adminSendOk clientSendOk
      if notify.raised then (store', warnLog ++ [.emailSendError], .success newId)
      else (store', warnLog, .success newId)

/-- `handle_contact_submission` (`core/views.py`): same pipeline for the
contact variant; `ContactInquiry` defines no `save` override, so
persistence itself performs no model-level validation. -/
def handleContactSubmission (fd : CFormData) (adminSendOk clientSendOk : Bool)
    (store : List (Nat × CInq)) :
    List (Nat × CInq) × List LogEntry × SubmitResponse :=
  match validateCoreForm fd with
  | .error errs => (store, [], .validationFailed errs)
  | .ok inq =>
    let spam_score := coreCalculateSpamScore inq
    let inq := if spam_score > 7 then { inq with is_spam := true } else inq
    let warnLog : List LogEntry := if spam_score > 7 then [.spamWarning] else []
    let newId := store.length + 1
    let store' := store ++ [(newId, inq)]
    let notify := sendInquiryNotifications adminSendOk clientSendOk
    if notify.raised then (store', warnLog ++ [.emailSendError], .success newId)
    else (store', warnLog, .success newId)

/-- A default contact inquiry used to build concrete test inputs. -/
def baseCInq : CInq where
  full_name := "John Doe"
  email := "john@corp.com"
  phone := ""
  company_name := "Acme"
  job_title := ""
  country := "US"
  service := none
  project_type := "Website"
  project_description := "We need a new marketing website for our product."
  budget_range := "10k_25k"
  timeline := "planned"
  reference_url := ""
  additional_notes := ""
  status := "new"
  is_spam := false
  contacted_at := none

/-- Service inquiry whose only spam signal is an uppercase-heavy
description: 18 of 30 characters (60%) are uppercase. -/
def capsOnlyInq : SInq :=
  { baseSInq with project_description := "AAAAAAAAAAAAAAAAAAffffffffffff" }

/-- Service inquiry whose only spam signals are matched keywords
(four of them, all lowercase, in a length-acceptable description). -/
def kwOnlyInq : SInq :=
  { baseSInq with
      project_description := "please avoid viagra casino lottery bitcoin talk here" }

/-- Contact inquiry with an `aol.com` address and an innocuous 40-character
description: none of the core scoring conditions fire. -/
def c4CoreInq : CInq :=
  { baseCInq with
      email := "user@aol.com",
      project_description := "a nice lowercase project descr here ok f" }

/-- A fully valid `ServiceInquiryForm` submission. -/
def goodSvcForm : SvcFormData where
  website := ""
  accept_terms := true
  full_name := "John Doe"
  email := "john@corp.com"
  phone := ""
  company := "Acme"
  service := none
  project_type := "Website"
  project_description := "We need a new marketing website for our product."
  budget_range := "10k_25k"
  timeline := "planned"
  reference_url := ""
  additional_notes := ""

/-- A fully valid `ContactSalesForm` submission. -/
def goodCoreForm : CFormData where
  website := ""
  agree_to_contact := true
  full_name := "John Doe"
  email := "john@corp.com"
  phone := ""
  company_name := "Acme"
  job_title := ""
  country := "US"
  service := none
  project_type := "Website"
  project_description := "We need a new marketing website for our product."
  budget_range := "10k_25k"
  timeline := "planned"
  reference_url := ""
  additional_notes := ""

/-! ## Claim theorems -/

/-- C1 (counterexample): on an inquiry with a mid-tier budget, the `asap`
timeline and no attached service, `get_priority_score` returns `5 + 2 = 7`,
not the `5 + 1 = 6` the claim's `+1`-for-most-urgent formula predicts. -/
theorem c1_counterexample :
    get_priority_score { baseSInq with timeline := "asap" } = 7 ∧
    priorityScoreSpecC1 { baseSInq with timeline := "asap" } = 6 ∧
    get_priority_score { baseSInq with timeline := "asap" } ≠
      priorityScoreSpecC1 { baseSInq with timeline := "asap" } := by
  refine ⟨by decide, by decide, by decide⟩

/-- C1 (amended): `get_priority_score` returns an integer in [1, 10]
computed as a base of 5, plus a mutually exclusive budget bonus (+3 for
`over_100k`, +2 for `50k_100k`, +1 for `25k_50k`), plus a mutually
exclusive timeline bonus of **+2** for `asap` else +1 for `flexible`, plus
+1 when a service is attached, clamped to 10; the base case yields exactly
5 and top budget with urgent timeline and a service yields
`min (5+3+2+1) 10 = 10`. -/
theorem c1_priority_score_amended :
    (∀ i : SInq, get_priority_score i =
      min (5 +
        (if i.budget_range = "over_100k" then 3
         else if i.budget_range = "50k_100k" then 2
         else if i.budget_range = "25k_50k" then 1 else 0) +
        (if i.timeline = "asap" then 2
         else if i.timeline = "flexible" then 1 else 0) +
        (if i.service.isSome then 1 else 0)) 10) ∧
    (∀ i : SInq, 1 ≤ get_priority_score i ∧ get_priority_score i ≤ 10) ∧
    get_priority_score baseSInq = 5 ∧
    get_priority_score
      { baseSInq with
          budget_range := "over_100k", timeline := "asap", service := some 1 }
      = 10 := by
  refine ⟨?_, ?_, by decide, by decide⟩
  · intro i
    unfold get_priority_score
    split_ifs <;> simp only [] <;> omega
  · intro i
    unfold get_priority_score
    split_ifs <;> simp only [] <;> omega

/-- `serviceInquirySave` never touches `contacted_at`. -/
lemma serviceInquirySave_contacted_at {i r : SInq}
    (h : serviceInquirySave i = .ok r) : r.contacted_at = i.contacted_at := by
  unfold serviceInquirySave serviceInquiryClean at h
  split_ifs at h <;>
    first
      | (injection h with h2; rw [← h2]; done)
      | simp_all

/-- C8: for both inquiry variants `contacted_at` is set at most once:
`mark_as_contacted` stamps it only when it is unset, no core operation
(`mark_as_contacted` or `save`) ever clears or changes a set value, and on
the transition of a fresh record away from `new` to `contacted` the stamp
is set. -/
theorem c8_contacted_at_set_once :
    (∀ (i : SInq) (op : SvcOp) (t0 : Nat), i.contacted_at = some t0 →
        (svcApplyOp op i).contacted_at = some t0) ∧
    (∀ (i : SInq) (t : Nat), i.contacted_at = none →
        (svcMarkAsContacted t i).contacted_at = some t) ∧
    (∀ (i : SInq) (t : Nat), i.status = "new" → i.contacted_at = none →
        (svcMarkAsContacted t i).status = "contacted" ∧
        (svcMarkAsContacted t i).contacted_at = some t) ∧
    (∀ (i : CInq) (t t0 : Nat), i.contacted_at = some t0 →
        (coreMarkAsContacted t i).contacted_at = some t0) ∧
    (∀ (i : CInq) (t : Nat), i.contacted_at = none →
        (coreMarkAsContacted t i).contacted_at = some t) ∧
    (∀ (i : CInq) (t : Nat), i.status = "new" → i.contacted_at = none →
        (coreMarkAsContacted t i).status = "contacted" ∧
        (coreMarkAsContacted t i).contacted_at = some t) := by
  refine ⟨?_, ?_, ?_, ?_, ?_, ?_⟩
  · intro i op t0 h
    cases op with
    | markContacted t =>
      simp only [svcApplyOp, svcMarkAsContacted, h]
      split_ifs <;> simp_all
    | saveOp =>
      simp only [svcApplyOp]
      cases hs : serviceInquirySave i with
      | ok r => simpa [serviceInquirySave_contacted_at hs] using h
      | error e => exact h
  · intro i t h
    simp only [svcMarkAsContacted, h]
    split_ifs <;> simp_all
  · intro i t hs h
    simp only [svcMarkAsContacted, h, hs]
    split_ifs <;> simp_all
  · intro i t t0 h
    simp only [coreMarkAsContacted, h]
    split_ifs <;> simp_all
  · intro i t h
    simp only [coreMarkAsContacted, h]
    split_ifs <;> simp_all
  · intro i t hs h
    simp only [coreMarkAsContacted, h, hs]
    split_ifs <;> simp_all

/-- C8 (witness): on a fresh record a `mark_as_contacted` at time 42
stamps `contacted_at`, and a subsequent `save` preserves the stamp. -/
theorem c8_contacted_at_set_once_witness :
    (svcMarkAsContacted 42 baseSInq).status = "contacted" ∧
    (svcMarkAsContacted 42 baseSInq).contacted_at = some 42 ∧
    (svcApplyOp .saveOp { baseSInq with contacted_at := some 42 }).contacted_at
      = some 42 := by
  have h := c8_contacted_at_set_once
  refine ⟨(h.2.2.1 baseSInq 42 rfl rfl).1, (h.2.2.1 baseSInq 42 rfl rfl).2,
    h.1 { baseSInq with contacted_at := some 42 } .saveOp 42 rfl⟩

/-- C9: every successful `ServiceInquiry.save` runs `full_clean`, whose
`clean` sets `is_spam` whenever the description contains a model-level
spam keyword; so any record saved with such a description comes out
flagged, whatever `is_spam` was before the save. -/
theorem c9_save_sets_spam_flag :
    ∀ (i r : SInq), serviceInquirySave i = .ok r →
      hasModelSpamKeyword i.project_description = true →
      r.is_spam = true := by
  intro i r h hkw
  unfold serviceInquirySave serviceInquiryClean at h
  split_ifs at h <;>
    first
      | (injection h with h2; rw [← h2]; done)
      | simp_all

/-- C9 (witness): a staff edit that un-flags a `bitcoin`-mentioning
inquiry is re-flagged by the very save that persists it. -/
theorem c9_save_sets_spam_flag_witness :
    serviceInquirySave
      { baseSInq with project_description := "We want a bitcoin exchange site!",
                      is_spam := false } =
      .ok { baseSInq with
              project_description := "We want a bitcoin exchange site!",
              is_spam := true } ∧
    hasModelSpamKeyword "We want a bitcoin exchange site!" = true ∧
    ({ baseSInq with
        project_description := "We want a bitcoin exchange site!",
        is_spam := true } : SInq).is_spam = true := by
  refine ⟨rfl, by decide, ?_⟩
  exact c9_save_sets_spam_flag
    { baseSInq with project_description := "We want a bitcoin exchange site!",
                    is_spam := false }
    { baseSInq with project_description := "We want a bitcoin exchange site!",
                    is_spam := true }
    rfl (by decide)

/-- C10: the admin notification is attempted first and the client
confirmation second; when the admin send raises, the client send is never
attempted; when only the client send raises, the admin copy stays
dispatched; the client email is dispatched only after the admin email. -/
theorem c10_notification_order :
    ∀ c : Bool,
      sendInquiryNotifications false c =
        ⟨[.adminNotification], [], true⟩ ∧
      sendInquiryNotifications true false =
        ⟨[.adminNotification, .clientConfirmation], [.adminNotification], true⟩ ∧
      sendInquiryNotifications true true =
        ⟨[.adminNotification, .clientConfirmation],
         [.adminNotification, .clientConfirmation], false⟩ ∧
      (sendInquiryNotifications true c).attempted.head? =
        some .adminNotification := by
  intro c
  cases c <;> refine ⟨by decide, by decide, by decide, by decide⟩

/-- C2: both spam scores stay in [0, 10]; both factor through a profile of
matched conditions, over which the score is monotone non-decreasing (so
adding a satisfied condition never lowers it); the distinct-keyword
contribution is `min (2 * matches) 5`; and an uppercase-heavy description
(fraction above 0.5) with no other condition matched scores exactly 2. -/
theorem c2_spam_score_props :
    (∀ i : SInq, 0 ≤ svcCalculateSpamScore i ∧ svcCalculateSpamScore i ≤ 10) ∧
    (∀ i : CInq, 0 ≤ coreCalculateSpamScore i ∧ coreCalculateSpamScore i ≤ 10) ∧
    (∀ i : SInq, svcCalculateSpamScore i = spamScoreOfConds (svcCondsOf i)) ∧
    (∀ i : CInq, coreCalculateSpamScore i = spamScoreOfConds (coreCondsOf i)) ∧
    (∀ a b : SpamConds, condsLe a b → spamScoreOfConds a ≤ spamScoreOfConds b) ∧
    (∀ i : SInq,
      (svcCondsOf i).caps = false → (svcCondsOf i).freeEmail = false →
      (svcCondsOf i).combo = false → (svcCondsOf i).badLen = false →
      (svcCondsOf i).missing = false →
      svcCalculateSpamScore i = min ((svcCondsOf i).kw * 2) 5) ∧
    (∀ i : SInq,
      (svcCondsOf i).caps = true → (svcCondsOf i).kw = 0 →
      (svcCondsOf i).freeEmail = false → (svcCondsOf i).combo = false →
      (svcCondsOf i).badLen = false → (svcCondsOf i).missing = false →
      svcCalculateSpamScore i = 2) := by
  refine ⟨?_, ?_, svcSpamScore_eq_conds, coreSpamScore_eq_conds,
    fun a b h => spamScoreOfConds_mono h, ?_, ?_⟩
  · intro i
    rw [svcSpamScore_eq_conds]
    exact ⟨Nat.zero_le _, Nat.min_le_right _ _⟩
  · intro i
    rw [coreSpamScore_eq_conds]
    exact ⟨Nat.zero_le _, Nat.min_le_right _ _⟩
  · intro i h1 h2 h3 h4 h5
    rw [svcSpamScore_eq_conds]
    unfold spamScoreOfConds
    rw [h1, h2, h3, h4, h5]
    simp only [if_false, Bool.false_eq_true, ite_false]
    omega
  · intro i h1 h2 h3 h4 h5 h6
    rw [svcSpamScore_eq_conds]
    unfold spamScoreOfConds
    rw [h1, h2, h3, h4, h5, h6]
    simp only [if_true, if_false, Bool.false_eq_true, ite_false, ite_true]
    omega

/-- C2 (witness): the 60%-uppercase description alone scores exactly 2; a
four-keyword description alone scores `min (4 * 2) 5 = 5`; one concrete
profile dominated by another scores no more. -/
theorem c2_spam_score_props_witness :
    (2 * upperCount capsOnlyInq.project_description >
       capsOnlyInq.project_description.length) ∧
    svcCalculateSpamScore capsOnlyInq = 2 ∧
    (svcCondsOf kwOnlyInq).kw = 4 ∧
    svcCalculateSpamScore kwOnlyInq = min ((svcCondsOf kwOnlyInq).kw * 2) 5 ∧
    spamScoreOfConds ⟨false, 1, false, false, false, false⟩ ≤
      spamScoreOfConds ⟨true, 2, true, false, true, false⟩ := by
  have h := c2_spam_score_props
  refine ⟨by decide, ?_, by decide, ?_, ?_⟩
  · exact h.2.2.2.2.2.2 capsOnlyInq (by decide) (by decide) (by decide)
      (by decide) (by decide) (by decide)
  · exact h.2.2.2.2.2.1 kwOnlyInq (by decide) (by decide) (by decide)
      (by decide) (by decide)
  · exact h.2.2.2.2.1 _ _ (by decide)

/-- C4 (counterexample): `user@aol.com` is among the eight providers the
claim lists for both variants, yet on a contact inquiry with that address
(and an innocuous 40-character description) the core score is 0 — the core
variant checks only four free-mail domains, so no `+1` is added. -/
theorem c4_counterexample :
    emailDomain c4CoreInq.email ∈ svcFreeEmailDomains ∧
    emailDomain c4CoreInq.email ∉ coreFreeEmailDomains ∧
    coreCalculateSpamScore c4CoreInq = 0 := by
  refine ⟨by decide, by decide, by decide⟩

/-- C4 (amended): the service-inquiry score adds +1 exactly when the email
domain is one of the eight providers (gmail, yahoo, hotmail, outlook, aol,
icloud, mail, protonmail) and +1 exactly when the description length is
below 30 or above 2000; the contact variant adds +1 only for the four
providers gmail, yahoo, hotmail, outlook, and +1 only when the description
length is below 30 (no upper bound). -/
theorem c4_spam_terms_amended :
    (∀ i : SInq, svcCalculateSpamScore i =
      min ((if (svcCondsOf i).caps = true then 2 else 0) +
           min ((svcCondsOf i).kw * 2) 5 +
           (if i.email ≠ "" ∧ emailDomain i.email ∈
              ["gmail.com", "yahoo.com", "hotmail.com", "outlook.com",
               "aol.com", "icloud.com", "mail.com", "protonmail.com"]
            then 1 else 0) +
           (if (svcCondsOf i).combo = true then 1 else 0) +
           (if i.project_description ≠ "" ∧
              (i.project_description.length < 30 ∨
               i.project_description.length > 2000) then 1 else 0) +
           (if (svcCondsOf i).missing = true then 1 else 0)) 10) ∧
    (∀ i : CInq, coreCalculateSpamScore i =
      min ((if (coreCondsOf i).caps = true then 2 else 0) +
           min ((coreCondsOf i).kw * 2) 5 +
           (if i.email ≠ "" ∧ emailDomain i.email ∈
              ["gmail.com", "yahoo.com", "hotmail.com", "outlook.com"]
            then 1 else 0) +
           (if (coreCondsOf i).combo = true then 1 else 0) +
           (if i.project_description ≠ "" ∧ i.project_description.length < 30
            then 1 else 0)) 10) := by
  constructor
  · intro i
    rw [svcSpamScore_eq_conds]
    unfold spamScoreOfConds svcCondsOf
    simp only [Bool.and_eq_true, bne_iff_ne, decide_eq_true_eq, beq_iff_eq,
      Bool.or_eq_true, svcFreeEmailDomains, ne_eq]
  · intro i
    rw [coreSpamScore_eq_conds]
    unfold spamScoreOfConds coreCondsOf
    simp only [Bool.and_eq_true, bne_iff_ne, decide_eq_true_eq, beq_iff_eq,
      Bool.or_eq_true, coreFreeEmailDomains, ne_eq, Bool.false_eq_true,
      ite_false, if_false, Nat.add_zero]

/-- C5 (counterexample): the name `"@@@@"` has four characters outside
{letters, whitespace, hyphen, apostrophe}, so the claim says validation
fails; the contact-variant `clean_full_name` accepts it (it checks only
length and digits). -/
theorem c5_counterexample :
    coreCleanFullName "@@@@" = .ok "@@@@" ∧
    (("@@@@" : String).data.filter (fun c => !(isNameAllowedChar c))).length > 2 := by
  refine ⟨rfl, by decide⟩

/-- C5 (amended): the service-variant name validation succeeds exactly when
the trimmed name has length ≥ 2, no digits and at most 2 characters outside
{letters, whitespace, hyphen, apostrophe}; the contact variant drops the
special-character rule and succeeds exactly when the trimmed name has
length ≥ 2 and no digits.  `"John123"` fails both; `"Jo"` passes. -/
theorem c5_full_name_amended :
    (∀ s : String, (svcCleanFullName s).isOk = true ↔
      (2 ≤ (pyStrip s).length ∧ (pyStrip s).data.any Char.isDigit = false ∧
       ((pyStrip s).data.filter (fun c => !(isNameAllowedChar c))).length ≤ 2)) ∧
    (∀ s : String, (coreCleanFullName s).isOk = true ↔
      (2 ≤ (pyStrip s).length ∧ (pyStrip s).data.any Char.isDigit = false)) ∧
    (svcCleanFullName "John123").isOk = false ∧
    (coreCleanFullName "John123").isOk = false ∧
    2 ≤ (pyStrip "Jo").length ∧
    svcCleanFullName "Jo" = .ok "Jo" ∧
    coreCleanFullName "Jo" = .ok "Jo" := by
  refine ⟨?_, ?_, by decide, by decide, by decide, rfl, rfl⟩
  · intro s
    unfold svcCleanFullName
    simp only []
    split_ifs with h1 h2 h3
    · refine iff_of_false (by simp [Except.isOk, Except.toBool]) ?_
      rintro ⟨hl, -, -⟩
      omega
    · refine iff_of_false (by simp [Except.isOk, Except.toBool]) ?_
      rintro ⟨-, hd, -⟩
      simp_all
    · refine iff_of_false (by simp [Except.isOk, Except.toBool]) ?_
      rintro ⟨-, -, hc⟩
      omega
    · refine iff_of_true (by simp [Except.isOk, Except.toBool]) ?_
      refine ⟨by omega, by simp_all, by omega⟩
  · intro s
    unfold coreCleanFullName
    simp only []
    split_ifs with h1 h2
    · refine iff_of_false (by simp [Except.isOk, Except.toBool]) ?_
      rintro ⟨hl, -⟩
      omega
    · refine iff_of_false (by simp [Except.isOk, Except.toBool]) ?_
      rintro ⟨-, hd⟩
      simp_all
    · refine iff_of_true (by simp [Except.isOk, Except.toBool]) ?_
      refine ⟨by omega, by simp_all⟩

/-- C6: for both variants description validation fails below trimmed
length 20 and never fails the length rule at ≥ 20; any matched spam
keyword (case-insensitive substring) is rejected; the service variant
additionally rejects more than 3 URLs (via the `http(s)://` pattern) and,
over more than 10 words, a total-to-unique word ratio above 3; with none
of those conditions, validation passes. -/
theorem c6_project_description_validation :
    (∀ s : String, (pyStrip s).length < 20 →
      (svcCleanProjectDescription s).isOk = false ∧
      (coreCleanProjectDescription s).isOk = false) ∧
    (∀ s : String, 20 ≤ (pyStrip s).length →
      svcCleanProjectDescription s ≠ .error "description_too_short" ∧
      coreCleanProjectDescription s ≠ .error "description_too_short") ∧
    (∀ s : String,
      svcFormKeywords.any (fun k => substrB k (pyLower (pyStrip s))) = true →
      (svcCleanProjectDescription s).isOk = false) ∧
    (∀ s : String,
      coreFormKeywords.any (fun k => substrB k (pyLower (pyStrip s))) = true →
      (coreCleanProjectDescription s).isOk = false) ∧
    (∀ s : String, countUrls (pyStrip s) > 3 →
      (svcCleanProjectDescription s).isOk = false) ∧
    (∀ s : String,
      (pySplit (pyLower (pyStrip s))).length > 10 →
      (pySplit (pyLower (pyStrip s))).length >
        3 * (pySplit (pyLower (pyStrip s))).dedup.length →
      (svcCleanProjectDescription s).isOk = false) ∧
    (∀ s : String, 20 ≤ (pyStrip s).length →
      svcFormKeywords.any (fun k => substrB k (pyLower (pyStrip s))) = false →
      countUrls (pyStrip s) ≤ 3 →
      ((pySplit (pyLower (pyStrip s))).length ≤ 10 ∨
       (pySplit (pyLower (pyStrip s))).length ≤
         3 * (pySplit (pyLower (pyStrip s))).dedup.length) →
      svcCleanProjectDescription s = .ok (pyStrip s)) ∧
    (∀ s : String, 20 ≤ (pyStrip s).length →
      coreFormKeywords.any (fun k => substrB k (pyLower (pyStrip s))) = false →
      coreCleanProjectDescription s = .ok (pyStrip s)) := by
  refine ⟨?_, ?_, ?_, ?_, ?_, ?_, ?_, ?_⟩
  · intro s h
    unfold svcCleanProjectDescription coreCleanProjectDescription
    constructor <;> (simp only []; split_ifs <;> simp_all [Except.isOk, Except.toBool] <;> omega)
  · intro s h
    unfold svcCleanProjectDescription coreCleanProjectDescription
    constructor <;> (simp only []; split_ifs <;> simp_all <;> omega)
  · intro s h
    unfold svcCleanProjectDescription
    simp only []
    split_ifs <;> simp_all [Except.isOk, Except.toBool]
  · intro s h
    unfold coreCleanProjectDescription
    simp only []
    split_ifs <;> simp_all [Except.isOk, Except.toBool]
  · intro s h
    unfold svcCleanProjectDescription
    simp only []
    split_ifs <;> simp_all [Except.isOk, Except.toBool] <;> omega
  · intro s h1 h2
    unfold svcCleanProjectDescription
    simp only []
    split_ifs <;> simp_all [Except.isOk, Except.toBool] <;> omega
  · intro s h1 h2 h3 h4
    unfold svcCleanProjectDescription
    simp only []
    split_ifs <;> simp_all <;> omega
  · intro s h1 h2
    unfold coreCleanProjectDescription
    simp only []
    split_ifs <;> simp_all <;> omega

lemma validateSvcForm_error {fd : SvcFormData} (h : svcFormErrors fd ≠ []) :
    validateSvcForm fd = .error (svcFormErrors fd) := by
  unfold validateSvcForm
  cases hE : svcFormErrors fd with
  | nil => exact absurd hE h
  | cons a tl => rfl

lemma validateCoreForm_error {fd : CFormData} (h : coreFormErrors fd ≠ []) :
    validateCoreForm fd = .error (coreFormErrors fd) := by
  unfold validateCoreForm
  cases hE : coreFormErrors fd with
  | nil => exact absurd hE h
  | cons a tl => rfl

lemma svcFormErrors_website {fd : SvcFormData} (h : fd.website ≠ "") :
    ∃ tl, svcFormErrors fd = ("website", "spam_detected") :: tl := by
  unfold svcFormErrors svcCleanWebsite
  rw [if_pos h]
  exact ⟨_, rfl⟩

lemma coreFormErrors_website {fd : CFormData} (h : fd.website ≠ "") :
    ∃ tl, coreFormErrors fd = ("website", "spam") :: tl := by
  unfold coreFormErrors coreCleanWebsite
  rw [if_pos h]
  exact ⟨_, rfl⟩

/-- C3: a non-empty honeypot (`website`) field makes both forms invalid
with a spam error on that field, whatever the other fields hold; the view
then returns the validation-failure response and the store is unchanged —
nothing is persisted and no notification path is reached. -/
theorem c3_honeypot_rejects :
    ∀ (fd : SvcFormData) (fd2 : CFormData) (a c : Bool)
      (store : List (Nat × SInq)) (store2 : List (Nat × CInq)),
      fd.website ≠ "" → fd2.website ≠ "" →
      (("website", "spam_detected") ∈ svcFormErrors fd ∧
       validateSvcForm fd = .error (svcFormErrors fd) ∧
       serviceInquirySubmit fd a c store =
         (store, [], .validationFailed (svcFormErrors fd))) ∧
      (("website", "spam") ∈ coreFormErrors fd2 ∧
       validateCoreForm fd2 = .error (coreFormErrors fd2) ∧
       handleContactSubmission fd2 a c store2 =
         (store2, [], .validationFailed (coreFormErrors fd2))) := by
  intro fd fd2 a c store store2 hw hw2
  obtain ⟨tl, htl⟩ := svcFormErrors_website hw
  obtain ⟨tl2, htl2⟩ := coreFormErrors_website hw2
  have hv : validateSvcForm fd = .error (svcFormErrors fd) :=
    validateSvcForm_error (by rw [htl]; exact List.cons_ne_nil _ _)
  have hv2 : validateCoreForm fd2 = .error (coreFormErrors fd2) :=
    validateCoreForm_error (by rw [htl2]; exact List.cons_ne_nil _ _)
  refine ⟨⟨?_, hv, ?_⟩, ?_, hv2, ?_⟩
  · rw [htl]; exact List.mem_cons_self _ _
  · unfold serviceInquirySubmit
    rw [hv]
  · rw [htl2]; exact List.mem_cons_self _ _
  · unfold handleContactSubmission
    rw [hv2]

/-- C3 (witness): a submission that is valid in every other respect but
carries a filled trap field is rejected and nothing is stored. -/
theorem c3_honeypot_rejects_witness :
    ("website", "spam_detected") ∈
      svcFormErrors { goodSvcForm with website := "http://spam.example" } ∧
    serviceInquirySubmit { goodSvcForm with website := "http://spam.example" }
        true true [] =
      ([], [], .validationFailed
        (svcFormErrors { goodSvcForm with website := "http://spam.example" })) ∧
    ("website", "spam") ∈
      coreFormErrors { goodCoreForm with website := "http://spam.example" } ∧
    handleContactSubmission
        { goodCoreForm with website := "http://spam.example" } true true [] =
      ([], [], .validationFailed
        (coreFormErrors { goodCoreForm with website := "http://spam.example" })) := by
  have h := c3_honeypot_rejects
    { goodSvcForm with website := "http://spam.example" }
    { goodCoreForm with website := "http://spam.example" }
    true true [] [] (by decide) (by decide)
  exact ⟨h.1.1, h.1.2.2, h.2.1, h.2.2.2⟩

/-- C7: when validation and persistence succeed but the notification run
raises, the view catches the failure, logs it (no retry), keeps the stored
record — the store still gains the new id-record pair — and returns the
structured success acknowledgment carrying the assigned identifier. -/
theorem c7_notification_failure_nonfatal :
    (∀ (fd : SvcFormData) (inq saved : SInq) (a c : Bool)
       (store : List (Nat × SInq)),
      validateSvcForm fd = .ok inq →
      serviceInquirySave
        (if svcCalculateSpamScore inq > 7 then { inq with is_spam := true }
         else inq) = .ok saved →
      (sendInquiryNotifications a c).raised = true →
      serviceInquirySubmit fd a c store =
        (store ++ [(store.length + 1, saved)],
         (if svcCalculateSpamScore inq > 7 then [LogEntry.spamWarning] else [])
           ++ [LogEntry.emailSendError],
         .success (store.length + 1))) ∧
    (∀ (fd : CFormData) (inq : CInq) (a c : Bool) (store : List (Nat × CInq)),
      validateCoreForm fd = .ok inq →
      (sendInquiryNotifications a c).raised = true →
      handleContactSubmission fd a c store =
        (store ++ [(store.length + 1,
           if coreCalculateSpamScore inq > 7 then { inq with is_spam := true }
           else inq)],
         (if coreCalculateSpamScore inq > 7 then [LogEntry.spamWarning] else [])
           ++ [LogEntry.emailSendError],
         .success (store.length + 1))) := by
  constructor
  · intro fd inq saved a c store hval hsave hraise
    unfold serviceInquirySubmit
    rw [hval]
    simp only []
    rw [hsave]
    simp [hraise]
  · intro fd inq a c store hval hraise
    unfold handleContactSubmission
    rw [hval]
    simp [hraise]

/-- C7 (witness): with a valid submission and an admin send that raises,
the record with id 1 is stored and the response is `success 1`, alongside
the logged email failure. -/
theorem c7_notification_failure_nonfatal_witness :
    validateSvcForm goodSvcForm = .ok (svcCleanedInquiry goodSvcForm) ∧
    serviceInquirySubmit goodSvcForm false true [] =
      ([(1, svcCleanedInquiry goodSvcForm)], [LogEntry.emailSendError],
       .success 1) ∧
    handleContactSubmission goodCoreForm false true [] =
      ([(1, coreCleanedInquiry goodCoreForm)], [LogEntry.emailSendError],
       .success 1) := by
  refine ⟨rfl, ?_, ?_⟩
  · exact c7_notification_failure_nonfatal.1 goodSvcForm
      (svcCleanedInquiry goodSvcForm) (svcCleanedInquiry goodSvcForm)
      false true [] rfl rfl rfl
  · exact c7_notification_failure_nonfatal.2 goodCoreForm
      (coreCleanedInquiry goodCoreForm) false true [] rfl rfl

/-- C6 (witness): a 10-character description fails; four URLs in one
description fail; one over-repetitive description fails; an ordinary
48-character description passes both variants. -/
theorem c6_project_description_validation_witness :
    (pyStrip "short desc").length < 20 ∧
    (svcCleanProjectDescription "short desc").isOk = false ∧
    countUrls
      "go http://a.com http://b.com http://c.com http://d.com now" > 3 ∧
    (svcCleanProjectDescription
      "go http://a.com http://b.com http://c.com http://d.com now").isOk
      = false ∧
    svcCleanProjectDescription
        "We need a new marketing website for our product." =
      .ok "We need a new marketing website for our product." ∧
    coreCleanProjectDescription
        "We need a new marketing website for our product." =
      .ok "We need a new marketing website for our product." := by
  have h := c6_project_description_validation
  refine ⟨by decide, (h.1 "short desc" (by decide)).1, by decide,
    h.2.2.2.2.1 "go http://a.com http://b.com http://c.com http://d.com now"
      (by decide),
    h.2.2.2.2.2.2.1 "We need a new marketing website for our product."
      (by decide) (by decide) (by decide) (Or.inl (by decide)),
    h.2.2.2.2.2.2.2 "We need a new marketing website for our product."
      (by decide) (by decide)⟩
